import Mathlib

/-!
Shallow embedding of the two scripts of this repository:

* `99-model-oci-image/docker/download_model.py` — the Model Fetcher CLI.
  The process environment is modelled as a function `String → Option String`
  (Python's `os.environ.get`).  The external library call `snapshot_download`
  is modelled as a parameter `transfer : SnapshotArgs → Except String Unit`:
  `.ok ()` is a normal return, `.error e` is a raised exception whose
  message is `e`.  The observable behaviour of one invocation — exit code,
  stdout lines, stderr lines, and the list of `snapshot_download`
  invocations in order — is collected in `RunResult`.

* `01-maas/notebook-image/jupyter_ai_config.py` — the Config Emitter.
  The three `c.AiExtension.*` assignments are modelled as the fields of
  `AiExtensionConfig`, produced from the environment.

Python's `str.strip()` on the token is modelled by `pyStrip`, which drops
leading and trailing ASCII whitespace (space, tab, LF, CR, VT, FF) — the
whitespace set Python strips, restricted to ASCII.
-/

/-- A process environment: `os.environ.get name` is `env name`. -/
def Env : Type := String → Option String

/-- The argument record of one `snapshot_download(...)` invocation:
`repo_id`, `local_dir`, `token`, `ignore_patterns`. -/
structure SnapshotArgs where
  repo_id : String
  local_dir : String
  token : Option String
  ignore_patterns : List String
deriving DecidableEq, Repr

/-- The observable outcome of one run of the script: the process exit code,
the lines printed to stdout and stderr (in order), and the
`snapshot_download` invocations made (in order). -/
structure RunResult where
  exitCode : Nat
  stdout : List String
  stderr : List String
  calls : List SnapshotArgs
deriving DecidableEq, Repr

namespace DownloadModel

/-- The `ignore_patterns=[...]` list literal passed to `snapshot_download`
in `download_model.py`.  The `"*.bin"` entry in the source is commented
out, hence absent here. -/
def ignorePatterns : List String :=
  ["*.md", "*.txt", ".gitattributes", "original/*", "*.msgpack", "*.h5"]

/-- The ASCII whitespace characters stripped by Python's `str.strip()`:
space, tab, newline, carriage return, vertical tab, form feed. -/
def isPyWhitespace (c : Char) : Bool :=
  c = ' ' || c = '\t' || c = '\n' || c = '\r' ||
  c = Char.ofNat 11 || c = Char.ofNat 12

/-- Python's `str.strip()` (no argument): drop leading and trailing
whitespace. -/
def pyStrip (s : String) : String :=
  String.mk
    (((s.data.dropWhile isPyWhitespace).reverse.dropWhile isPyWhitespace).reverse)

/-- Normalisation of `HF_TOKEN` (lines 21–23 of `download_model.py`):
`hf_token = os.environ.get("HF_TOKEN")`, then
`if hf_token is not None and hf_token.strip() == "": hf_token = None`. -/
def normalizeToken (raw : Option String) : Option String :=
  match raw with
  | none => none
  | some t => if pyStrip t = "" then none else some t

/-- The `'Yes' if hf_token else 'No (public models only)'` expression.
After `normalizeToken` the token is `none` or a non-blank string, so
Python truthiness coincides with `Option.isSome`. -/
def tokenStatus (hf_token : Option String) : String :=
  match hf_token with
  | some _ => "Yes"
  | none => "No (public models only)"

/-- The body of `main()` of `download_model.py`, over the three values the
script reads from the environment: `os.environ.get("MODEL_ID")`,
`os.environ.get("HF_TOKEN")`, `os.environ.get("OUTPUT_DIR")` (the latter
with default `"/models"`).  `transfer` models `snapshot_download`
(`.error e` = the call raised an exception with message `e`). -/
def mainCore (model_id hf_raw out_raw : Option String)
    (transfer : SnapshotArgs → Except String Unit) : RunResult :=
  match model_id with
  | none =>
      { exitCode := 1, stdout := [],
        stderr := ["ERROR: MODEL_ID environment variable is required"],
        calls := [] }
  | some m =>
      if m = "" then
        { exitCode := 1, stdout := [],
          stderr := ["ERROR: MODEL_ID environment variable is required"],
          calls := [] }
      else
        let hf_token := normalizeToken hf_raw
        let output_dir := out_raw.getD "/models"
        let statusLines :=
          ["Downloading model: " ++ m,
           "Output directory: " ++ output_dir,
           "Using HF token: " ++ tokenStatus hf_token]
        let args : SnapshotArgs :=
          { repo_id := m, local_dir := output_dir, token := hf_token,
            ignore_patterns := ignorePatterns }
        match transfer args with
        | Except.ok _ =>
            { exitCode := 0,
              stdout := statusLines ++
                ["Successfully downloaded model to " ++ output_dir],
              stderr := [], calls := [args] }
        | Except.error e =>
            { exitCode := 1, stdout := statusLines,
              stderr := ["ERROR: Failed to download model: " ++ e],
              calls := [args] }

/-- Shallow embedding of `main()` of `download_model.py`: reads the three
environment variables and runs the body. -/
def main (env : Env) (transfer : SnapshotArgs → Except String Unit) : RunResult :=
  mainCore (env "MODEL_ID") (env "HF_TOKEN") (env "OUTPUT_DIR") transfer

end DownloadModel

/-- The settings object built by `jupyter_ai_config.py`: the three
`c.AiExtension.*` fields it assigns. -/
structure AiExtensionConfig where
  default_language_model : String
  enable_chat : Bool
  enable_code_generation : Bool
deriving DecidableEq, Repr

/-- Shallow embedding of `jupyter_ai_config.py`: reads
`JUPYTER_AI_DEFAULT_MODEL` with the literal fallback and sets both
boolean flags to `True`. -/
def jupyterAiConfig (env : Env) : AiExtensionConfig :=
  { default_language_model :=
      (env "JUPYTER_AI_DEFAULT_MODEL").getD "openai-chat:gpt-3.5-turbo",
    enable_chat := true,
    enable_code_generation := true }

/-- Pointwise update of an environment: set (or unset) one variable. -/
def setVar (env : Env) (k : String) (v : Option String) : Env :=
  fun x => if x = k then v else env x

/-- The empty environment (no variables set). -/
def emptyEnv : Env := fun _ => none

/-- A transfer mechanism that always succeeds. -/
def transferOk : SnapshotArgs → Except String Unit := fun _ => Except.ok ()

/-- A transfer mechanism that always raises, with message `msg`. -/
def transferFail (msg : String) : SnapshotArgs → Except String Unit :=
  fun _ => Except.error msg

/-- The `snapshot_download` argument record produced by a run with
`MODEL_ID=foo/bar`, no token and the default output directory; used as a
concrete instance in witnesses. -/
def fooBarArgs : SnapshotArgs :=
  { repo_id := "foo/bar", local_dir := "/models", token := none,
    ignore_patterns := DownloadModel.ignorePatterns }

/-- The result of the usage-error path of `main`. -/
theorem mainCore_usage (hf_raw out_raw : Option String)
    (transfer : SnapshotArgs → Except String Unit)
    (mid : Option String) (h : mid = none ∨ mid = some "") :
    DownloadModel.mainCore mid hf_raw out_raw transfer =
      { exitCode := 1, stdout := [],
        stderr := ["ERROR: MODEL_ID environment variable is required"],
        calls := [] } := by
  rcases h with h | h <;> subst h <;> rfl

/-- Unfolding of the valid-input path of `mainCore` up to the transfer call. -/
theorem mainCore_valid (m : String) (hne : m ≠ "") (hf_raw out_raw : Option String)
    (transfer : SnapshotArgs → Except String Unit) :
    DownloadModel.mainCore (some m) hf_raw out_raw transfer =
      let hf_token := DownloadModel.normalizeToken hf_raw
      let output_dir := out_raw.getD "/models"
      let statusLines :=
        ["Downloading model: " ++ m,
         "Output directory: " ++ output_dir,
         "Using HF token: " ++ DownloadModel.tokenStatus hf_token]
      let args : SnapshotArgs :=
        { repo_id := m, local_dir := output_dir, token := hf_token,
          ignore_patterns := DownloadModel.ignorePatterns }
      match transfer args with
      | Except.ok _ =>
          { exitCode := 0,
            stdout := statusLines ++
              ["Successfully downloaded model to " ++ output_dir],
            stderr := [], calls := [args] }
      | Except.error e =>
          { exitCode := 1, stdout := statusLines,
            stderr := ["ERROR: Failed to download model: " ++ e],
            calls := [args] } := by
  unfold DownloadModel.mainCore
  simp [hne]

/-- On valid input, `mainCore` makes exactly the one `snapshot_download`
call, with this argument record, whatever the transfer outcome. -/
theorem mainCore_calls (m : String) (hne : m ≠ "") (hf_raw out_raw : Option String)
    (transfer : SnapshotArgs → Except String Unit) :
    (DownloadModel.mainCore (some m) hf_raw out_raw transfer).calls =
      [{ repo_id := m, local_dir := out_raw.getD "/models",
         token := DownloadModel.normalizeToken hf_raw,
         ignore_patterns := DownloadModel.ignorePatterns }] := by
  rw [mainCore_valid m hne]
  dsimp only
  split <;> rfl

/-- `mainCore` depends on the raw token only through `normalizeToken`. -/
theorem mainCore_token_congr (mid out hf1 hf2 : Option String)
    (transfer : SnapshotArgs → Except String Unit)
    (h : DownloadModel.normalizeToken hf1 = DownloadModel.normalizeToken hf2) :
    DownloadModel.mainCore mid hf1 out transfer =
      DownloadModel.mainCore mid hf2 out transfer := by
  unfold DownloadModel.mainCore
  rw [h]

/-- Every `snapshot_download` call made by `mainCore` carries the
normalized token. -/
theorem mainCore_token_in_calls (mid hf out : Option String)
    (transfer : SnapshotArgs → Except String Unit) (a : SnapshotArgs)
    (ha : a ∈ (DownloadModel.mainCore mid hf out transfer).calls) :
    a.token = DownloadModel.normalizeToken hf := by
  cases mid with
  | none =>
      rw [mainCore_usage hf out transfer none (Or.inl rfl)] at ha
      exact absurd ha (List.not_mem_nil a)
  | some m =>
      by_cases hm : m = ""
      · subst hm
        rw [mainCore_usage hf out transfer (some "") (Or.inr rfl)] at ha
        exact absurd ha (List.not_mem_nil a)
      · rw [mainCore_calls m hm hf out transfer, List.mem_singleton] at ha
        subst ha
        rfl

/-- Environment reads other than `HF_TOKEN` are unaffected by `setVar`
on `HF_TOKEN`. -/
theorem setVar_hf_model_id (env : Env) (v : Option String) :
    setVar env "HF_TOKEN" v "MODEL_ID" = env "MODEL_ID" := by
  simp [setVar]

theorem setVar_hf_output_dir (env : Env) (v : Option String) :
    setVar env "HF_TOKEN" v "OUTPUT_DIR" = env "OUTPUT_DIR" := by
  simp [setVar]

theorem setVar_hf_hf (env : Env) (v : Option String) :
    setVar env "HF_TOKEN" v "HF_TOKEN" = v := by
  simp [setVar]

/-- C1: if `MODEL_ID` is unset or set to the empty string, the Model
Fetcher exits with status 1, writes the error message to the error stream,
and never invokes `snapshot_download`. -/
theorem C1_usage_error (env : Env) (transfer : SnapshotArgs → Except String Unit)
    (h : env "MODEL_ID" = none ∨ env "MODEL_ID" = some "") :
    (DownloadModel.main env transfer).exitCode = 1 ∧
    (DownloadModel.main env transfer).stderr =
      ["ERROR: MODEL_ID environment variable is required"] ∧
    (DownloadModel.main env transfer).calls = [] := by
  unfold DownloadModel.main
  rw [mainCore_usage _ _ _ _ h]
  exact ⟨rfl, rfl, rfl⟩

/-- Witness for C1 at the empty environment. -/
theorem C1_witness :
    (DownloadModel.main emptyEnv transferOk).exitCode = 1 ∧
    (DownloadModel.main emptyEnv transferOk).stderr =
      ["ERROR: MODEL_ID environment variable is required"] ∧
    (DownloadModel.main emptyEnv transferOk).calls = [] :=
  C1_usage_error emptyEnv transferOk (Or.inl rfl)

/-- C10: if `MODEL_ID` is unset or empty, the Model Fetcher writes nothing
to standard output: the usage error happens before any status line, and the
only output is the single error-stream message. -/
theorem C10_no_stdout_on_usage_error (env : Env)
    (transfer : SnapshotArgs → Except String Unit)
    (h : env "MODEL_ID" = none ∨ env "MODEL_ID" = some "") :
    (DownloadModel.main env transfer).stdout = [] ∧
    (DownloadModel.main env transfer).stderr =
      ["ERROR: MODEL_ID environment variable is required"] := by
  unfold DownloadModel.main
  rw [mainCore_usage _ _ _ _ h]
  exact ⟨rfl, rfl⟩

/-- Witness for C10 with `MODEL_ID` set to the empty string. -/
theorem C10_witness :
    (DownloadModel.main (setVar emptyEnv "MODEL_ID" (some "")) transferOk).stdout = [] ∧
    (DownloadModel.main (setVar emptyEnv "MODEL_ID" (some "")) transferOk).stderr =
      ["ERROR: MODEL_ID environment variable is required"] :=
  C10_no_stdout_on_usage_error (setVar emptyEnv "MODEL_ID" (some "")) transferOk
    (Or.inr rfl)

/-- C5: the Config Emitter's default language model identifier is the value
of `JUPYTER_AI_DEFAULT_MODEL` verbatim when set, and the literal
`"openai-chat:gpt-3.5-turbo"` when unset. -/
theorem C5_default_model (env : Env) :
    (env "JUPYTER_AI_DEFAULT_MODEL" = none →
      (jupyterAiConfig env).default_language_model = "openai-chat:gpt-3.5-turbo") ∧
    (∀ v, env "JUPYTER_AI_DEFAULT_MODEL" = some v →
      (jupyterAiConfig env).default_language_model = v) := by
  constructor
  · intro h; simp [jupyterAiConfig, h]
  · intro v h; simp [jupyterAiConfig, h]

/-- Witness for C5: both the unset case and a concrete set case. -/
theorem C5_witness :
    (jupyterAiConfig emptyEnv).default_language_model = "openai-chat:gpt-3.5-turbo" ∧
    (jupyterAiConfig (setVar emptyEnv "JUPYTER_AI_DEFAULT_MODEL"
        (some "openai-chat:gpt-4o"))).default_language_model = "openai-chat:gpt-4o" :=
  ⟨(C5_default_model emptyEnv).1 rfl,
   (C5_default_model (setVar emptyEnv "JUPYTER_AI_DEFAULT_MODEL"
      (some "openai-chat:gpt-4o"))).2 "openai-chat:gpt-4o" rfl⟩

/-- C6: in every environment the chat-interface flag and the
code-generation flag produced by the Config Emitter are both `true`. -/
theorem C6_flags_always_true (env : Env) :
    (jupyterAiConfig env).enable_chat = true ∧
    (jupyterAiConfig env).enable_code_generation = true :=
  ⟨rfl, rfl⟩

/-- C2: when validation passes and the transfer call raises with message
`e`, the fetcher exits with status 1, its only error-stream line contains
`e`, and `snapshot_download` was invoked exactly once (no retry). -/
theorem C2_transfer_failure (env : Env)
    (transfer : SnapshotArgs → Except String Unit) (m e : String)
    (hm : env "MODEL_ID" = some m) (hne : m ≠ "")
    (hfail : transfer
        { repo_id := m, local_dir := (env "OUTPUT_DIR").getD "/models",
          token := DownloadModel.normalizeToken (env "HF_TOKEN"),
          ignore_patterns := DownloadModel.ignorePatterns } = Except.error e) :
    (DownloadModel.main env transfer).exitCode = 1 ∧
    (DownloadModel.main env transfer).stderr =
      ["ERROR: Failed to download model: " ++ e] ∧
    (DownloadModel.main env transfer).calls.length = 1 := by
  unfold DownloadModel.main
  rw [hm, mainCore_valid m hne]
  dsimp only
  rw [hfail]
  exact ⟨rfl, rfl, rfl⟩

/-- Witness for C2: `MODEL_ID=foo/bar` with a transfer that raises. -/
theorem C2_witness :
    (DownloadModel.main (setVar emptyEnv "MODEL_ID" (some "foo/bar"))
        (transferFail "boom")).exitCode = 1 ∧
    (DownloadModel.main (setVar emptyEnv "MODEL_ID" (some "foo/bar"))
        (transferFail "boom")).stderr =
      ["ERROR: Failed to download model: " ++ "boom"] ∧
    (DownloadModel.main (setVar emptyEnv "MODEL_ID" (some "foo/bar"))
        (transferFail "boom")).calls.length = 1 :=
  C2_transfer_failure (setVar emptyEnv "MODEL_ID" (some "foo/bar"))
    (transferFail "boom") "foo/bar" "boom" (by decide) (by decide) rfl

/-- C3 as stated is false: on a concrete valid invocation the single
`snapshot_download` call uses an `ignore_patterns` list that does NOT
contain `"*.bin"` — the line excluding PyTorch `.bin` files is commented
out in the source, so legacy `.bin` weight files are not excluded. -/
theorem C3_counterexample :
    (DownloadModel.main (setVar emptyEnv "MODEL_ID" (some "foo/bar"))
        transferOk).calls = [fooBarArgs] ∧
    "*.bin" ∉ DownloadModel.ignorePatterns := by
  exact ⟨rfl, by decide⟩

/-- C3 (amended): on every invocation that passes validation, the fetcher
invokes the transfer mechanism exactly once, with the fixed exclusion list
`["*.md", "*.txt", ".gitattributes", "original/*", "*.msgpack", "*.h5"]`;
this list skips documentation, repository metadata and the msgpack/h5
legacy weight formats, but does not exclude PyTorch `*.bin` files. -/
theorem C3_single_call_fixed_patterns (env : Env)
    (transfer : SnapshotArgs → Except String Unit) (m : String)
    (hm : env "MODEL_ID" = some m) (hne : m ≠ "") :
    (DownloadModel.main env transfer).calls.length = 1 ∧
    ∀ a ∈ (DownloadModel.main env transfer).calls,
      a.ignore_patterns = DownloadModel.ignorePatterns ∧
      "*.bin" ∉ a.ignore_patterns := by
  unfold DownloadModel.main
  rw [hm, mainCore_calls m hne]
  refine ⟨rfl, ?_⟩
  intro a ha
  rw [List.mem_singleton] at ha
  subst ha
  refine ⟨rfl, ?_⟩
  show "*.bin" ∉ DownloadModel.ignorePatterns
  decide

/-- Witness for C3 (amended) at `MODEL_ID=foo/bar`. -/
theorem C3_witness :
    (DownloadModel.main (setVar emptyEnv "MODEL_ID" (some "foo/bar"))
        transferOk).calls.length = 1 ∧
    (fooBarArgs.ignore_patterns = DownloadModel.ignorePatterns ∧
      "*.bin" ∉ fooBarArgs.ignore_patterns) :=
  ⟨(C3_single_call_fixed_patterns (setVar emptyEnv "MODEL_ID" (some "foo/bar"))
      transferOk "foo/bar" (by decide) (by decide)).1,
   (C3_single_call_fixed_patterns (setVar emptyEnv "MODEL_ID" (some "foo/bar"))
      transferOk "foo/bar" (by decide) (by decide)).2 fooBarArgs (by decide)⟩

/-- C4: when validation passes and the transfer call returns normally, the
fetcher exits with status 0 and prints a confirmation line containing the
resolved output directory. -/
theorem C4_success (env : Env)
    (transfer : SnapshotArgs → Except String Unit) (m : String)
    (hm : env "MODEL_ID" = some m) (hne : m ≠ "")
    (hok : transfer
        { repo_id := m, local_dir := (env "OUTPUT_DIR").getD "/models",
          token := DownloadModel.normalizeToken (env "HF_TOKEN"),
          ignore_patterns := DownloadModel.ignorePatterns } = Except.ok ()) :
    (DownloadModel.main env transfer).exitCode = 0 ∧
    ("Successfully downloaded model to " ++ (env "OUTPUT_DIR").getD "/models") ∈
      (DownloadModel.main env transfer).stdout := by
  unfold DownloadModel.main
  rw [hm, mainCore_valid m hne]
  dsimp only
  rw [hok]
  exact ⟨rfl, by simp⟩

/-- Witness for C4: `MODEL_ID=foo/bar` with a transfer that succeeds. -/
theorem C4_witness :
    (DownloadModel.main (setVar emptyEnv "MODEL_ID" (some "foo/bar"))
        transferOk).exitCode = 0 ∧
    ("Successfully downloaded model to " ++
        ((setVar emptyEnv "MODEL_ID" (some "foo/bar")) "OUTPUT_DIR").getD "/models") ∈
      (DownloadModel.main (setVar emptyEnv "MODEL_ID" (some "foo/bar"))
        transferOk).stdout :=
  C4_success (setVar emptyEnv "MODEL_ID" (some "foo/bar")) transferOk "foo/bar"
    (by decide) (by decide) rfl

/-- C7: setting `HF_TOKEN` to the empty string is observationally identical
to leaving it unset, and every `snapshot_download` call then carries the
absent token `none`. -/
theorem C7_empty_token_treated_absent (env : Env)
    (transfer : SnapshotArgs → Except String Unit) :
    DownloadModel.main (setVar env "HF_TOKEN" (some "")) transfer =
      DownloadModel.main (setVar env "HF_TOKEN" none) transfer ∧
    ∀ a ∈ (DownloadModel.main (setVar env "HF_TOKEN" (some "")) transfer).calls,
      a.token = none := by
  constructor
  · unfold DownloadModel.main
    simp only [setVar_hf_model_id, setVar_hf_output_dir, setVar_hf_hf]
    exact mainCore_token_congr _ _ _ _ transfer (by decide)
  · intro a ha
    unfold DownloadModel.main at ha
    simp only [setVar_hf_model_id, setVar_hf_output_dir, setVar_hf_hf] at ha
    have h := mainCore_token_in_calls _ _ _ transfer a ha
    rw [h]
    decide

/-- Witness for C7 at `MODEL_ID=foo/bar`, `HF_TOKEN=""`. -/
theorem C7_witness :
    (DownloadModel.main
        (setVar (setVar emptyEnv "MODEL_ID" (some "foo/bar")) "HF_TOKEN" (some ""))
        transferOk =
      DownloadModel.main
        (setVar (setVar emptyEnv "MODEL_ID" (some "foo/bar")) "HF_TOKEN" none)
        transferOk) ∧
    fooBarArgs.token = none :=
  ⟨(C7_empty_token_treated_absent (setVar emptyEnv "MODEL_ID" (some "foo/bar"))
      transferOk).1,
   (C7_empty_token_treated_absent (setVar emptyEnv "MODEL_ID" (some "foo/bar"))
      transferOk).2 fooBarArgs (by decide)⟩

/-- C8: with `MODEL_ID` set non-empty and `OUTPUT_DIR` unset, the resolved
output directory is `/models`: every transfer call targets it and the
status output prints it. -/
theorem C8_default_output_dir (env : Env)
    (transfer : SnapshotArgs → Except String Unit) (m : String)
    (hm : env "MODEL_ID" = some m) (hne : m ≠ "")
    (hout : env "OUTPUT_DIR" = none) :
    (∀ a ∈ (DownloadModel.main env transfer).calls, a.local_dir = "/models") ∧
    "Output directory: /models" ∈ (DownloadModel.main env transfer).stdout := by
  unfold DownloadModel.main
  rw [hm, hout]
  constructor
  · intro a ha
    rw [mainCore_calls m hne, List.mem_singleton] at ha
    subst ha
    rfl
  · rw [mainCore_valid m hne]
    dsimp only
    have hdir : "Output directory: /models" =
        "Output directory: " ++ (Option.getD none "/models") := by decide
    split <;> (rw [hdir]; simp)

/-- Witness for C8 at `MODEL_ID=foo/bar` with `OUTPUT_DIR` unset. -/
theorem C8_witness :
    fooBarArgs.local_dir = "/models" ∧
    "Output directory: /models" ∈
      (DownloadModel.main (setVar emptyEnv "MODEL_ID" (some "foo/bar"))
        transferOk).stdout :=
  ⟨(C8_default_output_dir (setVar emptyEnv "MODEL_ID" (some "foo/bar"))
      transferOk "foo/bar" (by decide) (by decide) (by decide)).1 fooBarArgs (by decide),
   (C8_default_output_dir (setVar emptyEnv "MODEL_ID" (some "foo/bar"))
      transferOk "foo/bar" (by decide) (by decide) (by decide)).2⟩

/-- C9: a token consisting only of whitespace is also treated as absent —
the run is observationally identical to an unset `HF_TOKEN`, and every
transfer call carries `none`. -/
theorem C9_whitespace_token_treated_absent (env : Env)
    (transfer : SnapshotArgs → Except String Unit) (t : String)
    (ht : DownloadModel.pyStrip t = "") :
    DownloadModel.main (setVar env "HF_TOKEN" (some t)) transfer =
      DownloadModel.main (setVar env "HF_TOKEN" none) transfer ∧
    ∀ a ∈ (DownloadModel.main (setVar env "HF_TOKEN" (some t)) transfer).calls,
      a.token = none := by
  have hnorm : DownloadModel.normalizeToken (some t) =
      DownloadModel.normalizeToken none := by
    simp [DownloadModel.normalizeToken, ht]
  constructor
  · unfold DownloadModel.main
    simp only [setVar_hf_model_id, setVar_hf_output_dir, setVar_hf_hf]
    exact mainCore_token_congr _ _ _ _ transfer hnorm
  · intro a ha
    unfold DownloadModel.main at ha
    simp only [setVar_hf_model_id, setVar_hf_output_dir, setVar_hf_hf] at ha
    have h := mainCore_token_in_calls _ _ _ transfer a ha
    rw [h, hnorm]
    rfl

/-- Witness for C9 at `HF_TOKEN="   "` (three spaces). -/
theorem C9_witness :
    DownloadModel.main (setVar emptyEnv "HF_TOKEN" (some "   ")) transferOk =
      DownloadModel.main (setVar emptyEnv "HF_TOKEN" none) transferOk :=
  (C9_whitespace_token_treated_absent emptyEnv transferOk "   " (by decide)).1
